import Mathlib

/-!
Shallow embedding of the aad-b2c-validate-token crate (src/lib.rs and
src/error.rs): an Azure AD B2C access-token validator with a cached set
of RSA signing keys, a rate-limited key refresh, and a three-way
validation outcome.  Time is modelled as whole seconds (Nat); the two
HTTP fetches performed by the refresh helper are modelled as an oracle
record passed to the functions that perform them, and the external
jsonwebtoken primitives are modelled from the interface contract given
in the specification.
-/

namespace AadB2c

/-- Signature algorithms of the external jsonwebtoken crate that can occur
in a token header; the source only ever selects RS256. -/
inductive Algorithm
  | RS256
  | RS384
  | RS512
  | HS256
  | ES256
deriving DecidableEq, Repr

/-- Modelled from the spec: structured cryptographic/claims errors of the
external token-verification primitive (jsonwebtoken::errors::Error). -/
inductive JwtError
  | InvalidToken
  | InvalidSignature
  | InvalidAlgorithm
  | ExpiredSignature
  | ImmatureSignature
  | InvalidAudience
  | InvalidIssuer
  | MissingRequiredClaim (name : String)
  | Base64Error
deriving DecidableEq, Repr

/-- The error enum of src/error.rs.  MissingKid carries the message
"Missing key ID field in JWT header"; StrangeKid carries the message
"Key ID in JWT header is not in the list of acceptable keys"; Http wraps
a reqwest error (modelled by its message); Jwt wraps a jsonwebtoken
error; Unknown is the catch-all.  There is no RateLimited variant. -/
inductive Error
  | MissingKid
  | StrangeKid
  | Http (msg : String)
  | Jwt (e : JwtError)
  | Unknown
deriving DecidableEq, Repr

/-- The refresh frequency constant KEYS_REFRESH_FREQUENCY_SECONDS of
src/lib.rs: 60 * 60 * 8 seconds, i.e. eight hours. -/
def KEYS_REFRESH_FREQUENCY_SECONDS : Nat := 60 * 60 * 8

/-- An RSA decoding key as produced by
jsonwebtoken::DecodingKey::from_rsa_components: it is materialized from
a base64url modulus and exponent pair, which we keep as the key
material. -/
structure DecodingKey where
  rsa_modulus : String
  rsa_exponent : String
deriving DecidableEq, Repr

/-- A character legal in a base64url-encoded RSA component. -/
def isBase64UrlChar (c : Char) : Bool :=
  c.isAlphanum || c == '-' || c == '_'

/-- A nonempty string of base64url characters. -/
def isBase64Url (s : String) : Bool :=
  s.length > 0 && s.toList.all isBase64UrlChar

/-- Modelled from the spec: DecodingKey::from_rsa_components of the
external jsonwebtoken crate materializes an RSA public key from a
base64url (modulus, exponent) pair and fails when the components are
not valid RSA parameters; the failure is a jsonwebtoken error, which
src/error.rs converts into Error::Jwt. -/
def DecodingKey.from_rsa_components (n e : String) : Except Error DecodingKey :=
  if isBase64Url n && isBase64Url e then Except.ok ⟨n, e⟩
  else Except.error (Error.Jwt JwtError.Base64Error)

/-- The OidMetadata deserialization target of src/lib.rs: an optional
issuer and a required jwks_uri. -/
structure OidMetadata where
  issuer : Option String
  jwks_uri : String
deriving DecidableEq, Repr

/-- The KeyMetadata deserialization target of src/lib.rs: key id, RSA
modulus and RSA exponent of one published key record. -/
structure KeyMetadata where
  key_id : String
  rsa_modulus : String
  rsa_exponent : String
deriving DecidableEq, Repr

/-- The KeysMetadata deserialization target of src/lib.rs: the list of
published key records. -/
structure KeysMetadata where
  keys : List KeyMetadata
deriving DecidableEq, Repr

/-- Oracle for the two HTTP fetches done by refresh_keys: each field is
the combined outcome of reqwest::get on the given URL followed by JSON
deserialization; a failure is a reqwest/parse error modelled by its
message, which the source converts into Error::Http. -/
structure HttpClient where
  get_oid_metadata : String → Except String OidMetadata
  get_keys_metadata : String → Except String KeysMetadata

/-- The discovery-metadata URL built by refresh_keys from the tenant and
policy names. -/
def metadata_uri (tenant_name policy_name : String) : String :=
  "https://" ++ tenant_name ++ ".b2clogin.com/" ++ tenant_name
    ++ ".onmicrosoft.com/" ++ policy_name
    ++ "/v2.0/.well-known/openid-configuration"

/-- The collect step of refresh_keys: convert each published key record
into a (key id, DecodingKey) entry, stopping at the first conversion
failure, exactly as collect over an iterator of Results does.  The
resulting association list models the HashMap built by the source. -/
def collectKeys : List KeyMetadata → Except Error (List (String × DecodingKey))
  | [] => Except.ok []
  | k :: rest => do
    let dk ← DecodingKey.from_rsa_components k.rsa_modulus k.rsa_exponent
    let tail ← collectKeys rest
    pure ((k.key_id, dk) :: tail)

/-- The refresh_keys helper of src/lib.rs: fetch the discovery metadata,
fetch the key-set document from its jwks_uri, convert every key record,
and return the optional issuer together with the key map. -/
def refresh_keys (http : HttpClient) (tenant_name policy_name : String) :
    Except Error (Option String × List (String × DecodingKey)) := do
  let oid_metadata ← (http.get_oid_metadata
    (metadata_uri tenant_name policy_name)).mapError Error.Http
  let keys_metadata ← (http.get_keys_metadata oid_metadata.jwks_uri).mapError Error.Http
  let keys ← collectKeys keys_metadata.keys
  pure (oid_metadata.issuer, keys)

/-- Modelled from the spec: the Validation settings record of the
external jsonwebtoken crate, restricted to the fields the source
touches: the accepted algorithms, the required registered claims, the
exp and nbf toggles, the optional audience allow-list and the optional
expected issuers. -/
structure Validation where
  algorithms : List Algorithm
  required_spec_claims : List String
  validate_exp : Bool
  validate_nbf : Bool
  aud : Option (List String)
  iss : Option (List String)
deriving DecidableEq, Repr

/-- Modelled from the spec: Validation::new of jsonwebtoken fixes the
accepted algorithms to the single given one, with the crate defaults
for the remaining fields. -/
def Validation.new (alg : Algorithm) : Validation :=
  { algorithms := [alg]
    required_spec_claims := [("exp")]
    validate_exp := true
    validate_nbf := false
    aud := none
    iss := none }

/-- Validation::set_required_spec_claims of jsonwebtoken: replace the
set of claims that must be present. -/
def Validation.set_required_spec_claims (v : Validation) (claims : List String) :
    Validation :=
  { v with required_spec_claims := claims }

/-- Validation::set_audience of jsonwebtoken: install an audience
allow-list. -/
def Validation.set_audience (v : Validation) (items : List String) : Validation :=
  { v with aud := some items }

/-- Validation::set_issuer of jsonwebtoken: install the accepted issuer
strings. -/
def Validation.set_issuer (v : Validation) (items : List String) : Validation :=
  { v with iss := some items }

/-- The AzureAd validator state of src/lib.rs.  The keys HashMap is
modelled as an association list from key id to decoding key; the
Instant last_key_refresh_time is modelled in whole seconds, matching
the as_secs granularity at which the source reads it. -/
structure AzureAd where
  tenant_name : String
  policy_name : String
  keys : List (String × DecodingKey)
  last_key_refresh_time : Nat
  validation : Validation
deriving DecidableEq, Repr

/-- AzureAd::new of src/lib.rs: run the initial refresh_keys fetch, then
build the validation policy: RS256 only, required claims iss, sub, exp,
nbf and aud, exp and nbf enforced, audience allow-list when app_ids was
supplied, expected issuer when the discovery metadata published one.
The now argument is the Instant::now() taken at construction and stored
as last_key_refresh_time. -/
def AzureAd.new (http : HttpClient) (now : Nat) (tenant_name policy_name : String)
    (app_ids : Option (List String)) : Except Error AzureAd := do
  let (issuer, keys) ← refresh_keys http tenant_name policy_name
  let validation := Validation.new Algorithm.RS256
  let validation := validation.set_required_spec_claims
    [("iss"), ("sub"), ("exp"), ("nbf"), ("aud")]
  let validation := { validation with validate_exp := true, validate_nbf := true }
  let validation :=
    match app_ids with
    | some ids => validation.set_audience ids
    | none => validation
  let validation :=
    match issuer with
    | some i => validation.set_issuer [i]
    | none => validation
  pure { tenant_name := tenant_name
         policy_name := policy_name
         keys := keys
         last_key_refresh_time := now
         validation := validation }

/-- AzureAd::refresh_validation_keys of src/lib.rs, with the &mut self
mutation made explicit: the result is the Result value, the post state
of self, and a flag recording whether the network helper refresh_keys
ran at all.  If the elapsed seconds since last_key_refresh_time are
below the frequency constant, the call fails with Error::StrangeKid,
self is untouched and no fetch happens; on a fetch failure the error is
propagated with self untouched; on success the key map is replaced, the
issuer is installed when a new one was discovered, and the timestamp is
set to now. -/
def AzureAd.refresh_validation_keys (self : AzureAd) (http : HttpClient) (now : Nat) :
    Except Error Unit × AzureAd × Bool :=
  if now - self.last_key_refresh_time < KEYS_REFRESH_FREQUENCY_SECONDS then
    (Except.error Error.StrangeKid, self, false)
  else
    match refresh_keys http self.tenant_name self.policy_name with
    | Except.error e => (Except.error e, self, true)
    | Except.ok (issuer, keys) =>
      let s1 := { self with keys := keys }
      let s2 :=
        match issuer with
        | some i => { s1 with validation := s1.validation.set_issuer [i] }
        | none => s1
      (Except.ok (), { s2 with last_key_refresh_time := now }, true)

/-- The three-way validation outcome of src/lib.rs. -/
inductive ValidationResult (T : Type)
  | Valid (t : T)
  | NeedKeyRefresh
deriving DecidableEq, Repr

/-- ValidationResult::ok of src/lib.rs. -/
def ValidationResult.ok {T : Type} : ValidationResult T → Option T
  | ValidationResult.Valid t => some t
  | ValidationResult.NeedKeyRefresh => none

/-- A decoded JWT header: the signature algorithm and the optional key
identifier, the two fields the source reads. -/
structure Header where
  alg : Algorithm
  kid : Option String
deriving DecidableEq, Repr

/-- The registered claims of a token payload that the modelled
verification primitive inspects; each is optional because a token may
omit it. -/
structure ClaimSet where
  iss : Option String
  sub : Option String
  aud : Option (List String)
  exp : Option Nat
  nbf : Option Nat
deriving DecidableEq, Repr

/-- Modelled from the spec: the content of a well-formed compact token
string, for a caller claims type T: its header, its registered claims,
the verification key its signature matches (the standard symbolic model
of an RSA signature), and the payload deserialized into T. -/
structure Token (T : Type) where
  header : Header
  claims : ClaimSet
  signing_key : DecodingKey
  data : T
deriving DecidableEq, Repr

/-- Modelled from the spec: an access-token string is either malformed,
so that header decoding fails with a jsonwebtoken error, or carries a
well-formed token. -/
inductive TokenStr (T : Type)
  | malformed (e : JwtError)
  | well_formed (t : Token T)
deriving DecidableEq, Repr

/-- Modelled from the spec: jsonwebtoken::decode_header parses the
header of a compact token string without verifying the signature. -/
def decode_header {T : Type} : TokenStr T → Except Error Header
  | TokenStr.malformed e => Except.error (Error.Jwt e)
  | TokenStr.well_formed t => Except.ok t.header

/-- Whether a registered claim with the given name is present in a
claim set; only the five registered claims the policy of this crate can
require are modelled. -/
def ClaimSet.hasClaim (c : ClaimSet) (name : String) : Bool :=
  match name with
  | "iss" => c.iss.isSome
  | "sub" => c.sub.isSome
  | "aud" => c.aud.isSome
  | "exp" => c.exp.isSome
  | "nbf" => c.nbf.isSome
  | _ => false

/-- The expiry check of the modelled verifier: enforced only when
validate_exp is set; a missing exp claim is a missing required claim, a
past exp is an expired signature. -/
def expCheck (now : Nat) (validate_exp : Bool) (exp : Option Nat) : Option JwtError :=
  if validate_exp then
    match exp with
    | none => some (JwtError.MissingRequiredClaim ("exp"))
    | some e => if e < now then some JwtError.ExpiredSignature else none
  else none

/-- The not-before check of the modelled verifier: enforced only when
validate_nbf is set; a future nbf is an immature signature. -/
def nbfCheck (now : Nat) (validate_nbf : Bool) (nbf : Option Nat) : Option JwtError :=
  if validate_nbf then
    match nbf with
    | none => some (JwtError.MissingRequiredClaim ("nbf"))
    | some n => if now < n then some JwtError.ImmatureSignature else none
  else none

/-- The issuer check of the modelled verifier: performed only when an
expected issuer list was configured. -/
def issCheck (expected : Option (List String)) (iss : Option String) : Option JwtError :=
  match expected with
  | none => none
  | some allowed =>
    match iss with
    | none => some (JwtError.MissingRequiredClaim ("iss"))
    | some i => if allowed.contains i then none else some JwtError.InvalidIssuer

/-- The audience check of the modelled verifier: performed only when an
audience allow-list was configured; it passes when some audience of the
token is in the allow-list. -/
def audCheck (expected : Option (List String)) (aud : Option (List String)) :
    Option JwtError :=
  match expected with
  | none => none
  | some allowed =>
    match aud with
    | none => some (JwtError.MissingRequiredClaim ("aud"))
    | some auds => if auds.any (fun a => allowed.contains a) then none
                   else some JwtError.InvalidAudience

/-- The decoded token returned by the verification primitive: the header
and the claims payload deserialized into the caller type. -/
structure TokenData (T : Type) where
  header : Header
  claims : T
deriving DecidableEq, Repr

/-- Modelled from the spec: jsonwebtoken::decode verifies a compact
token string against a key and a Validation: the header algorithm must
be among the accepted algorithms, the signature must match the key, all
required registered claims must be present, and the exp, nbf, issuer
and audience constraints must hold, each enforced only as the
Validation asks; any failure is a structured jsonwebtoken error. -/
def decode {T : Type} (now : Nat) (token : TokenStr T) (key : DecodingKey)
    (validation : Validation) : Except Error (TokenData T) :=
  match token with
  | TokenStr.malformed e => Except.error (Error.Jwt e)
  | TokenStr.well_formed t =>
    if ¬ t.header.alg ∈ validation.algorithms then
      Except.error (Error.Jwt JwtError.InvalidAlgorithm)
    else if ¬ t.signing_key = key then
      Except.error (Error.Jwt JwtError.InvalidSignature)
    else
      match validation.required_spec_claims.find? (fun c => ! t.claims.hasClaim c) with
      | some c => Except.error (Error.Jwt (JwtError.MissingRequiredClaim c))
      | none =>
        match expCheck now validation.validate_exp t.claims.exp with
        | some e => Except.error (Error.Jwt e)
        | none =>
          match nbfCheck now validation.validate_nbf t.claims.nbf with
          | some e => Except.error (Error.Jwt e)
          | none =>
            match issCheck validation.iss t.claims.iss with
            | some e => Except.error (Error.Jwt e)
            | none =>
              match audCheck validation.aud t.claims.aud with
              | some e => Except.error (Error.Jwt e)
              | none => Except.ok { header := t.header, claims := t.data }

/-- AzureAd::validate_access_token of src/lib.rs: decode the header,
take its key id or fail with Error::MissingKid, look the key id up in
the key map; a miss yields Ok(NeedKeyRefresh), a hit runs decode with
the matched key and the stored validation policy, propagating its error
or wrapping its claims in Valid.  The now argument is the clock the
external verifier compares exp and nbf against. -/
def AzureAd.validate_access_token {T : Type} (self : AzureAd) (now : Nat)
    (access_token : TokenStr T) : Except Error (ValidationResult T) := do
  let header ← decode_header access_token
  let key_id ←
    (match header.kid with
     | some k => Except.ok k
     | none => Except.error Error.MissingKid)
  match self.keys.find? (fun p => p.1 == key_id) with
  | none => pure ValidationResult.NeedKeyRefresh
  | some pr => do
    let v ← decode now access_token pr.2 self.validation
    pure (ValidationResult.Valid v.claims)

/-- The Debug rendering of AzureAd from src/lib.rs: a debug_struct with
the tenant name, the policy name, the keys rendered as self.keys.keys()
(that is, only the key identifiers), the refresh timestamp and the
validation settings.  The key material never enters the output. -/
def AzureAd.debugFmt (self : AzureAd) : String :=
  "AzureAd \x7b tenant_name: " ++ self.tenant_name
    ++ ", policy_name: " ++ self.policy_name
    ++ ", keys: " ++ toString (self.keys.map Prod.fst)
    ++ ", last_key_refresh_time: " ++ toString self.last_key_refresh_time
    ++ ", validation: " ++ reprStr self.validation
    ++ " \x7d"

end AadB2c

namespace AadB2c

/-- Characterization of a successful construction: AzureAd.new returns
Ok exactly when refresh_keys does, and the state it builds stores the
inputs, the fetched keys, the construction instant and the policy
described in the source. -/
theorem new_ok_spec (http : HttpClient) (now : Nat) (tenant_name policy_name : String)
    (app_ids : Option (List String)) (s : AzureAd)
    (h : AzureAd.new http now tenant_name policy_name app_ids = Except.ok s) :
    ∃ issuer keys,
      refresh_keys http tenant_name policy_name = Except.ok (issuer, keys) ∧
      s.tenant_name = tenant_name ∧ s.policy_name = policy_name ∧ s.keys = keys ∧
      s.last_key_refresh_time = now ∧
      s.validation.algorithms = [Algorithm.RS256] ∧
      s.validation.required_spec_claims = [("iss"), ("sub"), ("exp"), ("nbf"), ("aud")] ∧
      s.validation.validate_exp = true ∧
      s.validation.validate_nbf = true ∧
      s.validation.aud = app_ids ∧
      s.validation.iss = issuer.map (fun i => [i]) := by
  cases hrk : refresh_keys http tenant_name policy_name with
  | error e =>
    simp [AzureAd.new, hrk, Except.bind, bind] at h
  | ok pr =>
    obtain ⟨issuer, keys⟩ := pr
    refine ⟨issuer, keys, rfl, ?_⟩
    simp only [AzureAd.new, hrk, Except.bind, bind, pure, Except.pure] at h
    cases app_ids <;> cases issuer <;>
      simp_all [Validation.new, Validation.set_required_spec_claims,
        Validation.set_audience, Validation.set_issuer] <;>
      cases h <;> simp

/-- Characterization of a successful refresh: when the rate limit has
elapsed and refresh_keys succeeds, the post state keeps the tenant and
policy names, replaces the key map, installs the discovered issuer and
records the refresh instant; the network helper ran. -/
theorem refresh_success_spec (s : AzureAd) (http : HttpClient) (now : Nat)
    (issuer : Option String) (keys : List (String × DecodingKey))
    (hge : KEYS_REFRESH_FREQUENCY_SECONDS ≤ now - s.last_key_refresh_time)
    (hrk : refresh_keys http s.tenant_name s.policy_name = Except.ok (issuer, keys)) :
    s.refresh_validation_keys http now =
      (Except.ok (),
       { tenant_name := s.tenant_name
         policy_name := s.policy_name
         keys := keys
         last_key_refresh_time := now
         validation :=
           match issuer with
           | some i => s.validation.set_issuer [i]
           | none => s.validation },
       true) := by
  simp only [AzureAd.refresh_validation_keys, Nat.not_lt.mpr hge, if_false, hrk]
  cases issuer <;> rfl

end AadB2c

namespace AadB2c

/-- A concrete decoding key used by the witnesses. -/
def keyA : DecodingKey := { rsa_modulus := "modA", rsa_exponent := "AQAB" }

/-- A second concrete decoding key, with different material. -/
def keyB : DecodingKey := { rsa_modulus := "modB", rsa_exponent := "AQAB" }

/-- An http oracle whose fetches both fail. -/
def httpDown : HttpClient :=
  { get_oid_metadata := fun _ => Except.error ("connection refused")
    get_keys_metadata := fun _ => Except.error ("connection refused") }

/-- An http oracle publishing the single key id k1 with the material of
keyA, together with a discovered issuer. -/
def httpK1 : HttpClient :=
  { get_oid_metadata := fun _ =>
      Except.ok { issuer := some ("issuer1"), jwks_uri := "u" }
    get_keys_metadata := fun _ =>
      Except.ok { keys := [{ key_id := "k1", rsa_modulus := "modA",
                             rsa_exponent := "AQAB" }] } }

/-- An http oracle publishing only the key id k2, omitting k1. -/
def httpK2 : HttpClient :=
  { get_oid_metadata := fun _ =>
      Except.ok { issuer := some ("issuer1"), jwks_uri := "u" }
    get_keys_metadata := fun _ =>
      Except.ok { keys := [{ key_id := "k2", rsa_modulus := "modB",
                             rsa_exponent := "AQAB" }] } }

/-- An http oracle publishing one key record whose modulus is not valid
base64url, so that key conversion fails. -/
def httpBadKey : HttpClient :=
  { get_oid_metadata := fun _ =>
      Except.ok { issuer := some ("issuer1"), jwks_uri := "u" }
    get_keys_metadata := fun _ =>
      Except.ok { keys := [{ key_id := "k1", rsa_modulus := "",
                             rsa_exponent := "AQAB" }] } }

/-- A concrete validator state holding only the key id k1. -/
def stateK1 : AzureAd :=
  { tenant_name := "tenant"
    policy_name := "policy"
    keys := [(("k1"), keyA)]
    last_key_refresh_time := 0
    validation := Validation.new Algorithm.RS256 }

/-- The same state as stateK1 except that the key id k1 maps to
different key material. -/
def stateK1B : AzureAd :=
  { stateK1 with keys := [(("k1"), keyB)] }

/-- The state AzureAd.new builds from httpK1 at instant 0 with no
audience allow-list. -/
def stateNew : AzureAd :=
  { tenant_name := "tenant"
    policy_name := "policy"
    keys := [(("k1"), keyA)]
    last_key_refresh_time := 0
    validation :=
      { algorithms := [Algorithm.RS256]
        required_spec_claims := [("iss"), ("sub"), ("exp"), ("nbf"), ("aud")]
        validate_exp := true
        validate_nbf := true
        aud := none
        iss := some [("issuer1")] } }

/-- A claim set satisfying the full construction policy of stateNew at
clocks below 100000. -/
def claimsFull : ClaimSet :=
  { iss := some ("issuer1")
    sub := some ("subject1")
    aud := some [("app1")]
    exp := some 100000
    nbf := some 0 }

/-- A well-formed token whose key id k2 is absent from stateK1. -/
def tokK2 : TokenStr Nat :=
  TokenStr.well_formed
    { header := { alg := Algorithm.RS256, kid := some ("k2") }
      claims := claimsFull
      signing_key := keyA
      data := 7 }

/-- A well-formed token lacking the key id header field. -/
def tokNoKid : TokenStr Nat :=
  TokenStr.well_formed
    { header := { alg := Algorithm.RS256, kid := none }
      claims := claimsFull
      signing_key := keyA
      data := 7 }

/-- C1: for every token whose header decodes successfully and carries a
key identifier that is absent from the key map, validate_access_token
returns Ok(NeedKeyRefresh): it neither errors nor returns Valid. -/
theorem validate_unknown_kid_needKeyRefresh {T : Type} (s : AzureAd) (now : Nat)
    (tok : TokenStr T) (h : Header) (k : String)
    (hh : decode_header tok = Except.ok h) (hk : h.kid = some k)
    (hmiss : s.keys.find? (fun p => p.1 == k) = none) :
    s.validate_access_token now tok = Except.ok ValidationResult.NeedKeyRefresh := by
  simp [AzureAd.validate_access_token, hh, hk, hmiss, Except.bind, bind, pure,
    Except.pure]

/-- Witness for C1: a concrete token with key id k2 against a state
whose only key id is k1. -/
theorem validate_unknown_kid_needKeyRefresh_witness :
    decode_header tokK2 =
      Except.ok { alg := Algorithm.RS256, kid := some ("k2") } ∧
    ({ alg := Algorithm.RS256, kid := some ("k2") } : Header).kid = some ("k2") ∧
    stateK1.keys.find? (fun p => p.1 == ("k2")) = none ∧
    stateK1.validate_access_token 100 tokK2 =
      Except.ok ValidationResult.NeedKeyRefresh :=
  ⟨rfl, rfl, rfl,
    validate_unknown_kid_needKeyRefresh stateK1 100 tokK2 _ ("k2") rfl rfl rfl⟩

/-- C5: for every token whose header decodes successfully but carries no
key identifier, validate_access_token fails with Error.MissingKid,
whatever the key map contains. -/
theorem validate_no_kid_missingKid {T : Type} (s : AzureAd) (now : Nat)
    (tok : TokenStr T) (h : Header)
    (hh : decode_header tok = Except.ok h) (hk : h.kid = none) :
    s.validate_access_token now tok = Except.error Error.MissingKid := by
  simp [AzureAd.validate_access_token, hh, hk, Except.bind, bind]

/-- Witness for C5: a concrete token without a key id against a
nonempty key map. -/
theorem validate_no_kid_missingKid_witness :
    decode_header tokNoKid =
      Except.ok { alg := Algorithm.RS256, kid := none } ∧
    ({ alg := Algorithm.RS256, kid := none } : Header).kid = none ∧
    stateK1.validate_access_token 100 tokNoKid = Except.error Error.MissingKid :=
  ⟨rfl, rfl, validate_no_kid_missingKid stateK1 100 tokNoKid _ rfl rfl⟩

/-- C3: a refresh attempted while the elapsed seconds since the last
refresh are below the frequency constant fails without running the
network helper and returns the state completely unchanged; applied to
the state left by any first call, this gives the two-calls-in-a-row
idempotence. -/
theorem refresh_rate_limited_frame (s : AzureAd) (http : HttpClient) (now : Nat)
    (hlt : now - s.last_key_refresh_time < KEYS_REFRESH_FREQUENCY_SECONDS) :
    s.refresh_validation_keys http now = (Except.error Error.StrangeKid, s, false) := by
  simp [AzureAd.refresh_validation_keys, hlt]

/-- Witness for C3: a rate-limited refresh 100 seconds after the last
one leaves the concrete state untouched and skips the network. -/
theorem refresh_rate_limited_frame_witness :
    100 - stateK1.last_key_refresh_time < KEYS_REFRESH_FREQUENCY_SECONDS ∧
    stateK1.refresh_validation_keys httpDown 100 =
      (Except.error Error.StrangeKid, stateK1, false) :=
  ⟨by decide, refresh_rate_limited_frame stateK1 httpDown 100 (by decide)⟩

/-- C2: the failing input for the rate-limit error kind: a validator
built at instant 0 and refreshed at instant 100 is rate limited, and
the error returned is Error.StrangeKid, the very variant whose message
in src/error.rs reads that the key ID in the JWT header is not in the
list of acceptable keys; the Error enum has no RateLimited variant, so
no error kind distinct from the unrecognized-key-identifier one is
produced. -/
theorem refresh_rate_limited_returns_strangeKid :
    AzureAd.new httpK1 0 ("tenant") ("policy") none = Except.ok stateNew ∧
    100 - stateNew.last_key_refresh_time < KEYS_REFRESH_FREQUENCY_SECONDS ∧
    stateNew.refresh_validation_keys httpK1 100 =
      (Except.error Error.StrangeKid, stateNew, false) :=
  ⟨rfl, by decide, rfl⟩

end AadB2c

namespace AadB2c

/-- C4: a refresh attempt past the rate limit propagates any fetch or
key-conversion error of refresh_keys and leaves every field of the
state untouched; when refresh_keys succeeds, the post state replaces
the whole key map with the fetched one, records the refresh instant,
keeps the tenant and policy names, and updates the issuer exactly when
a new one was discovered. -/
theorem refresh_failure_frame_success_replace (s : AzureAd) (http : HttpClient)
    (now : Nat)
    (hge : KEYS_REFRESH_FREQUENCY_SECONDS ≤ now - s.last_key_refresh_time) :
    (∀ e, refresh_keys http s.tenant_name s.policy_name = Except.error e →
      s.refresh_validation_keys http now = (Except.error e, s, true)) ∧
    (∀ issuer keys,
      refresh_keys http s.tenant_name s.policy_name = Except.ok (issuer, keys) →
      ∃ post, s.refresh_validation_keys http now = (Except.ok (), post, true) ∧
        post.keys = keys ∧ post.last_key_refresh_time = now ∧
        post.tenant_name = s.tenant_name ∧ post.policy_name = s.policy_name ∧
        post.validation =
          (match issuer with
           | some i => s.validation.set_issuer [i]
           | none => s.validation)) := by
  constructor
  · intro e he
    simp [AzureAd.refresh_validation_keys, Nat.not_lt.mpr hge, he]
  · intro issuer keys hrk
    exact ⟨_, refresh_success_spec s http now issuer keys hge hrk,
      rfl, rfl, rfl, rfl, by cases issuer <;> rfl⟩

/-- Witness for C4: at instant 30000 the concrete state accepts a
refresh; against the failing oracle the transport error is propagated
and the state is untouched, against the publishing oracle the key map
is replaced and the timestamp updated. -/
theorem refresh_failure_frame_success_replace_witness :
    KEYS_REFRESH_FREQUENCY_SECONDS ≤ 30000 - stateNew.last_key_refresh_time ∧
    stateNew.refresh_validation_keys httpDown 30000 =
      (Except.error (Error.Http ("connection refused")), stateNew, true) ∧
    (∃ post, stateNew.refresh_validation_keys httpK2 30000 =
        (Except.ok (), post, true) ∧
      post.keys = [(("k2"), keyB)] ∧ post.last_key_refresh_time = 30000 ∧
      post.tenant_name = stateNew.tenant_name ∧
      post.policy_name = stateNew.policy_name ∧
      post.validation = stateNew.validation.set_issuer [("issuer1")]) :=
  ⟨by decide,
   (refresh_failure_frame_success_replace stateNew httpDown 30000 (by decide)).1
     (Error.Http ("connection refused")) rfl,
   (refresh_failure_frame_success_replace stateNew httpK2 30000 (by decide)).2
     (some ("issuer1")) [(("k2"), keyB)] rfl⟩

/-- C10: construction records its own instant as the last refresh time,
so any refresh attempted less than the frequency constant after
construction fails in the rate-limit branch with the state untouched
and no network activity, even though no caller-driven refresh ever
happened. -/
theorem new_starts_rate_limit_window (http http2 : HttpClient) (t0 now : Nat)
    (tenant_name policy_name : String) (app_ids : Option (List String)) (s : AzureAd)
    (hnew : AzureAd.new http t0 tenant_name policy_name app_ids = Except.ok s)
    (hlt : now - t0 < KEYS_REFRESH_FREQUENCY_SECONDS) :
    s.last_key_refresh_time = t0 ∧
    s.refresh_validation_keys http2 now = (Except.error Error.StrangeKid, s, false) := by
  obtain ⟨issuer, keys, hrk, ht, hp, hkeys, hlast, hrest⟩ :=
    new_ok_spec http t0 tenant_name policy_name app_ids s hnew
  refine ⟨hlast, ?_⟩
  simp [AzureAd.refresh_validation_keys, hlast, hlt]

/-- Witness for C10: a validator built at instant 0 rejects a refresh at
instant 100. -/
theorem new_starts_rate_limit_window_witness :
    AzureAd.new httpK1 0 ("tenant") ("policy") none = Except.ok stateNew ∧
    100 - 0 < KEYS_REFRESH_FREQUENCY_SECONDS ∧
    (stateNew.last_key_refresh_time = 0 ∧
     stateNew.refresh_validation_keys httpDown 100 =
       (Except.error Error.StrangeKid, stateNew, false)) :=
  ⟨rfl, by decide,
   new_starts_rate_limit_window httpK1 httpDown 0 100 ("tenant") ("policy") none
     stateNew rfl (by decide)⟩

/-- C6: the policy built at construction fixes the algorithms to RS256
only, requires the iss, sub, exp, nbf and aud claims, enforces exp and
nbf, stores the audience allow-list exactly when one was supplied and
the discovered issuer exactly when one was published; a token whose
header algorithm is not RS256 fails validation even when its key id
matches a cached key; and the modelled verifier skips the audience and
issuer checks when they are not configured. -/
theorem new_validation_policy (http : HttpClient) (now : Nat)
    (tenant_name policy_name : String) (app_ids : Option (List String)) (s : AzureAd)
    (hnew : AzureAd.new http now tenant_name policy_name app_ids = Except.ok s) :
    s.validation.algorithms = [Algorithm.RS256] ∧
    s.validation.required_spec_claims = [("iss"), ("sub"), ("exp"), ("nbf"), ("aud")] ∧
    s.validation.validate_exp = true ∧
    s.validation.validate_nbf = true ∧
    s.validation.aud = app_ids ∧
    (∃ issuer keys,
      refresh_keys http tenant_name policy_name = Except.ok (issuer, keys) ∧
      s.validation.iss = issuer.map (fun i => [i])) ∧
    (∀ (T : Type) (now2 : Nat) (t : Token T) (k : String) (pr : String × DecodingKey),
      t.header.kid = some k → ¬ t.header.alg = Algorithm.RS256 →
      s.keys.find? (fun p => p.1 == k) = some pr →
      s.validate_access_token now2 (TokenStr.well_formed t) =
        Except.error (Error.Jwt JwtError.InvalidAlgorithm)) ∧
    (∀ a, audCheck none a = none) ∧
    (∀ i, issCheck none i = none) := by
  obtain ⟨issuer, keys, hrk, ht, hp, hkeys, hlast, halg, hreq, hexp, hnbf, haud, hiss⟩ :=
    new_ok_spec http now tenant_name policy_name app_ids s hnew
  refine ⟨halg, hreq, hexp, hnbf, haud, ⟨issuer, keys, hrk, hiss⟩, ?_,
    fun a => rfl, fun i => rfl⟩
  intro T now2 t k pr hkid halgne hfind
  simp [AzureAd.validate_access_token, decode_header, hkid, hfind, Except.bind, bind,
    decode, halg, halgne]

end AadB2c

namespace AadB2c

/-- The state AzureAd.new builds from httpK1 at instant 0 with the
allow-list app1. -/
def stateNewAud : AzureAd :=
  { stateNew with validation := { stateNew.validation with aud := some [("app1")] } }

/-- Witness for C6: construction from httpK1 with the allow-list app1
yields stateNewAud, whose policy satisfies every clause of the
theorem. -/
theorem new_validation_policy_witness :
    AzureAd.new httpK1 0 ("tenant") ("policy") (some [("app1")]) =
      Except.ok stateNewAud ∧
    (stateNewAud.validation.algorithms = [Algorithm.RS256] ∧
     stateNewAud.validation.required_spec_claims =
       [("iss"), ("sub"), ("exp"), ("nbf"), ("aud")] ∧
     stateNewAud.validation.validate_exp = true ∧
     stateNewAud.validation.validate_nbf = true ∧
     stateNewAud.validation.aud = some [("app1")] ∧
     (∃ issuer keys,
       refresh_keys httpK1 ("tenant") ("policy") = Except.ok (issuer, keys) ∧
       stateNewAud.validation.iss = issuer.map (fun i => [i])) ∧
     (∀ (T : Type) (now2 : Nat) (t : Token T) (k : String)
        (pr : String × DecodingKey),
       t.header.kid = some k → ¬ t.header.alg = Algorithm.RS256 →
       stateNewAud.keys.find? (fun p => p.1 == k) = some pr →
       stateNewAud.validate_access_token now2 (TokenStr.well_formed t) =
         Except.error (Error.Jwt JwtError.InvalidAlgorithm)) ∧
     (∀ a, audCheck none a = none) ∧
     (∀ i, issCheck none i = none)) :=
  ⟨rfl, new_validation_policy httpK1 0 ("tenant") ("policy") (some [("app1")])
    stateNewAud rfl⟩

/-- C7: successful refreshes replace the key map with exactly the
fetched document, never merging: after a refresh whose document holds
the key id k1, a token bearing that key id validates when the external
verifier accepts it, and after a further refresh whose document omits
k1 the same token yields NeedKeyRefresh. -/
theorem refresh_wholesale_replacement {T : Type} (http1 http2 : HttpClient)
    (t1 t2 now1 now2 : Nat) (s0 s1 s2 : AzureAd)
    (issuer1 issuer2 : Option String) (ks1 ks2 : List (String × DecodingKey))
    (k1 : String) (t : Token T) (pr : String × DecodingKey) (td : TokenData T)
    (hge1 : KEYS_REFRESH_FREQUENCY_SECONDS ≤ t1 - s0.last_key_refresh_time)
    (hrk1 : refresh_keys http1 s0.tenant_name s0.policy_name =
      Except.ok (issuer1, ks1))
    (h1 : s0.refresh_validation_keys http1 t1 = (Except.ok (), s1, true))
    (hge2 : KEYS_REFRESH_FREQUENCY_SECONDS ≤ t2 - s1.last_key_refresh_time)
    (hrk2 : refresh_keys http2 s1.tenant_name s1.policy_name =
      Except.ok (issuer2, ks2))
    (h2 : s1.refresh_validation_keys http2 t2 = (Except.ok (), s2, true))
    (hkid : t.header.kid = some k1)
    (hhit : ks1.find? (fun p => p.1 == k1) = some pr)
    (hdec : decode now1 (TokenStr.well_formed t) pr.2 s1.validation = Except.ok td)
    (hmiss : ks2.find? (fun p => p.1 == k1) = none) :
    s1.keys = ks1 ∧ s2.keys = ks2 ∧
    s1.validate_access_token now1 (TokenStr.well_formed t) =
      Except.ok (ValidationResult.Valid td.claims) ∧
    s2.validate_access_token now2 (TokenStr.well_formed t) =
      Except.ok ValidationResult.NeedKeyRefresh := by
  have e1 := refresh_success_spec s0 http1 t1 issuer1 ks1 hge1 hrk1
  rw [h1] at e1
  have hk1s : s1.keys = ks1 := by
    have := congrArg (fun p => (p.2.1 : AzureAd).keys) e1
    simpa using this
  have e2 := refresh_success_spec s1 http2 t2 issuer2 ks2 hge2 hrk2
  rw [h2] at e2
  have hk2s : s2.keys = ks2 := by
    have := congrArg (fun p => (p.2.1 : AzureAd).keys) e2
    simpa using this
  refine ⟨hk1s, hk2s, ?_, ?_⟩
  · simp [AzureAd.validate_access_token, decode_header, hkid, Except.bind, bind,
      hk1s, hhit, hdec, pure, Except.pure]
  · simp [AzureAd.validate_access_token, decode_header, hkid, Except.bind, bind,
      hk2s, hmiss, pure, Except.pure]

/-- The state after refreshing stateNew from httpK1 at instant 30000. -/
def stateAfter1 : AzureAd :=
  { tenant_name := "tenant"
    policy_name := "policy"
    keys := [(("k1"), keyA)]
    last_key_refresh_time := 30000
    validation := stateNew.validation.set_issuer [("issuer1")] }

/-- The state after refreshing stateAfter1 from httpK2 at instant
60000: the key id k1 is gone, k2 is present. -/
def stateAfter2 : AzureAd :=
  { stateAfter1 with
    keys := [(("k2"), keyB)]
    last_key_refresh_time := 60000
    validation := stateAfter1.validation.set_issuer [("issuer1")] }

/-- A well-formed token bearing the key id k1, signed with the material
of keyA, whose claims satisfy the construction policy below clock
100000. -/
def tokK1 : TokenStr Nat :=
  TokenStr.well_formed
    { header := { alg := Algorithm.RS256, kid := some ("k1") }
      claims := claimsFull
      signing_key := keyA
      data := 7 }

/-- Witness for C7: the concrete two-refresh scenario around the key id
k1. -/
theorem refresh_wholesale_replacement_witness :
    KEYS_REFRESH_FREQUENCY_SECONDS ≤ 30000 - stateNew.last_key_refresh_time ∧
    refresh_keys httpK1 stateNew.tenant_name stateNew.policy_name =
      Except.ok (some ("issuer1"), [(("k1"), keyA)]) ∧
    stateNew.refresh_validation_keys httpK1 30000 =
      (Except.ok (), stateAfter1, true) ∧
    KEYS_REFRESH_FREQUENCY_SECONDS ≤ 60000 - stateAfter1.last_key_refresh_time ∧
    refresh_keys httpK2 stateAfter1.tenant_name stateAfter1.policy_name =
      Except.ok (some ("issuer1"), [(("k2"), keyB)]) ∧
    stateAfter1.refresh_validation_keys httpK2 60000 =
      (Except.ok (), stateAfter2, true) ∧
    [(("k1"), keyA)].find? (fun p => p.1 == ("k1")) = some (("k1"), keyA) ∧
    decode 30001 tokK1 keyA stateAfter1.validation =
      Except.ok { header := { alg := Algorithm.RS256, kid := some ("k1") },
                  claims := 7 } ∧
    [(("k2"), keyB)].find? (fun p => p.1 == ("k1")) = none ∧
    (stateAfter1.keys = [(("k1"), keyA)] ∧
     stateAfter2.keys = [(("k2"), keyB)] ∧
     stateAfter1.validate_access_token 30001 tokK1 =
       Except.ok (ValidationResult.Valid 7) ∧
     stateAfter2.validate_access_token 60001 tokK1 =
       Except.ok ValidationResult.NeedKeyRefresh) :=
  ⟨by decide, rfl, rfl, by decide, rfl, rfl, rfl, rfl, rfl,
   refresh_wholesale_replacement httpK1 httpK2 30000 60000 30001 60001
     stateNew stateAfter1 stateAfter2 (some ("issuer1")) (some ("issuer1"))
     [(("k1"), keyA)] [(("k2"), keyB)] ("k1")
     { header := { alg := Algorithm.RS256, kid := some ("k1") }
       claims := claimsFull
       signing_key := keyA
       data := 7 }
     (("k1"), keyA)
     { header := { alg := Algorithm.RS256, kid := some ("k1") }, claims := 7 }
     (by decide) rfl rfl (by decide) rfl rfl rfl rfl rfl rfl⟩

/-- If the conversion of any record of the published key list fails,
the whole collect step fails. -/
theorem collectKeys_error_of_mem (l : List KeyMetadata) (k : KeyMetadata) (e : Error)
    (hk : k ∈ l)
    (hf : DecodingKey.from_rsa_components k.rsa_modulus k.rsa_exponent =
      Except.error e) :
    ∃ e2, collectKeys l = Except.error e2 := by
  induction l with
  | nil => cases hk
  | cons a rest ih =>
    cases hk with
    | head => exact ⟨e, by simp [collectKeys, hf, Except.bind, bind]⟩
    | tail _ hmem =>
      obtain ⟨e2, h2⟩ := ih hmem
      cases hfa : DecodingKey.from_rsa_components a.rsa_modulus a.rsa_exponent with
      | error e3 => exact ⟨e3, by simp [collectKeys, hfa, Except.bind, bind]⟩
      | ok dk => exact ⟨e2, by simp [collectKeys, hfa, h2, Except.bind, bind]⟩

/-- C8: construction is all or nothing: a failing refresh_keys fetch
propagates its error out of AzureAd.new, a failing conversion of any
single published key record makes AzureAd.new fail, and when
AzureAd.new returns a state its key map is exactly the fetched one, so
no partial or empty-by-failure validator is ever produced. -/
theorem new_all_or_nothing (http : HttpClient) (now : Nat)
    (tenant_name policy_name : String) (app_ids : Option (List String)) :
    (∀ e, refresh_keys http tenant_name policy_name = Except.error e →
      AzureAd.new http now tenant_name policy_name app_ids = Except.error e) ∧
    (∀ oidm kd k e,
      http.get_oid_metadata (metadata_uri tenant_name policy_name) = Except.ok oidm →
      http.get_keys_metadata oidm.jwks_uri = Except.ok kd →
      k ∈ kd.keys →
      DecodingKey.from_rsa_components k.rsa_modulus k.rsa_exponent =
        Except.error e →
      ∃ e2, AzureAd.new http now tenant_name policy_name app_ids =
        Except.error e2) ∧
    (∀ s, AzureAd.new http now tenant_name policy_name app_ids = Except.ok s →
      ∃ issuer, refresh_keys http tenant_name policy_name =
        Except.ok (issuer, s.keys)) := by
  refine ⟨?_, ?_, ?_⟩
  · intro e he
    simp [AzureAd.new, he, Except.bind, bind]
  · intro oidm kd k e ho hkm hmem hf
    obtain ⟨e2, hc⟩ := collectKeys_error_of_mem kd.keys k e hmem hf
    refine ⟨e2, ?_⟩
    simp [AzureAd.new, refresh_keys, ho, hkm, hc, Except.bind, bind, Except.mapError]
  · intro s hs
    obtain ⟨issuer, keys, hrk, ht, hp, hkeys, hrest⟩ :=
      new_ok_spec http now tenant_name policy_name app_ids s hs
    exact ⟨issuer, by rw [hkeys]; exact hrk⟩

/-- Witness for C8: the transport-failure oracle, the bad-key oracle and
the publishing oracle. -/
theorem new_all_or_nothing_witness :
    refresh_keys httpDown ("tenant") ("policy") =
      Except.error (Error.Http ("connection refused")) ∧
    AzureAd.new httpDown 0 ("tenant") ("policy") none =
      Except.error (Error.Http ("connection refused")) ∧
    DecodingKey.from_rsa_components ("") ("AQAB") =
      Except.error (Error.Jwt JwtError.Base64Error) ∧
    (∃ e2, AzureAd.new httpBadKey 0 ("tenant") ("policy") none =
      Except.error e2) ∧
    (∃ issuer, refresh_keys httpK1 ("tenant") ("policy") =
      Except.ok (issuer, stateNew.keys)) :=
  ⟨rfl,
   (new_all_or_nothing httpDown 0 ("tenant") ("policy") none).1
     (Error.Http ("connection refused")) rfl,
   rfl,
   (new_all_or_nothing httpBadKey 0 ("tenant") ("policy") none).2.1
     { issuer := some ("issuer1"), jwks_uri := "u" }
     { keys := [{ key_id := "k1", rsa_modulus := "", rsa_exponent := "AQAB" }] }
     { key_id := "k1", rsa_modulus := "", rsa_exponent := "AQAB" }
     (Error.Jwt JwtError.Base64Error) rfl rfl (by simp) rfl,
   (new_all_or_nothing httpK1 0 ("tenant") ("policy") none).2.2 stateNew rfl⟩

/-- C9: the Debug rendering of the state depends only on the tenant
name, the policy name, the key identifiers, the refresh timestamp and
the validation settings: two states agreeing on those render
identically whatever their key material is, so moduli and exponents
never reach the output. -/
theorem debug_renders_only_key_ids (s1 s2 : AzureAd)
    (ht : s1.tenant_name = s2.tenant_name)
    (hp : s1.policy_name = s2.policy_name)
    (hk : s1.keys.map Prod.fst = s2.keys.map Prod.fst)
    (hl : s1.last_key_refresh_time = s2.last_key_refresh_time)
    (hv : s1.validation = s2.validation) :
    s1.debugFmt = s2.debugFmt := by
  simp [AzureAd.debugFmt, ht, hp, hk, hl, hv]

/-- Witness for C9: two concrete states whose key maps differ in the
material behind the key id k1 but render identically. -/
theorem debug_renders_only_key_ids_witness :
    stateK1.keys ≠ stateK1B.keys ∧
    stateK1.tenant_name = stateK1B.tenant_name ∧
    stateK1.policy_name = stateK1B.policy_name ∧
    stateK1.keys.map Prod.fst = stateK1B.keys.map Prod.fst ∧
    stateK1.last_key_refresh_time = stateK1B.last_key_refresh_time ∧
    stateK1.validation = stateK1B.validation ∧
    stateK1.debugFmt = stateK1B.debugFmt :=
  ⟨by decide, rfl, rfl, rfl, rfl, rfl,
   debug_renders_only_key_ids stateK1 stateK1B rfl rfl rfl rfl rfl⟩

end AadB2c
